import Mathlib

/-!
Shallow embedding of the vendor-performance analytics pipeline
(`build_final_tables.py`).  The script executes SQL against SQLite; here
tables are lists of records, rational numbers stand for SQL numeric values,
and `Option` encodes SQL `NULL`.  Every builder mirrors one `CREATE TABLE ...
AS SELECT` statement of the script:

* a `GROUP BY` becomes: deduplicated list of keys (`groupKeys`), and per key
  the list of matching rows (`groupRows`) with `SUM` as list sum (`sumBy`);
* a `LEFT JOIN` against an aggregate keyed uniquely becomes `List.find?`
  with `COALESCE(..., 0)` as `Option.getD 0`;
* SQLite division yields `NULL` on a zero denominator, never an error:
  `sqlDiv`.
-/

/-- SQL `SUM(f(x))` over a list of rows (sum of the empty list is `0`,
standing for `COALESCE(SUM(...), 0)` where the script coalesces). -/
def sumBy {α : Type} (f : α → ℚ) (xs : List α) : ℚ := (xs.map f).sum

/-- The distinct keys of a `GROUP BY key`, in first-appearance order. -/
def groupKeys {α κ : Type} [DecidableEq κ] (key : α → κ) (xs : List α) : List κ :=
  (xs.map key).dedup

/-- The rows of one `GROUP BY` group: all rows whose key equals `k`. -/
def groupRows {α κ : Type} [BEq κ] (key : α → κ) (xs : List α) (k : κ) : List α :=
  xs.filter (fun x => key x == k)

/-- SQLite division: `NULL` when the denominator is zero, else the quotient. -/
def sqlDiv (a b : ℚ) : Option ℚ := if b = 0 then none else some (a / b)

/-- SQL `MAX` over the text values of a (nonempty) group; SQLite's default
BINARY collation agrees with the lexicographic order on strings. -/
def sqlMaxStr : List String → String
  | [] => ""
  | x :: xs => xs.foldl max x

/-- A row of the base table `sales`. -/
structure SaleRecord where
  InventoryId : Nat
  Brand : Nat
  SalesQuantity : ℚ
  SalesDollars : ℚ
  deriving DecidableEq

/-- A row of the base table `purchases`. -/
structure PurchaseRecord where
  InventoryId : Nat
  VendorNumber : Nat
  VendorName : String
  Brand : Nat
  Quantity : ℚ
  PurchasePrice : ℚ
  deriving DecidableEq

/-- A row of the base table `vendor_invoice`. -/
structure VendorInvoiceRecord where
  VendorNumber : Nat
  Quantity : ℚ
  Dollars : ℚ
  Freight : ℚ
  deriving DecidableEq

/-- The three base tables the pipeline reads. -/
structure DBInput where
  sales : List SaleRecord
  purchases : List PurchaseRecord
  vendor_invoice : List VendorInvoiceRecord
  deriving DecidableEq

/-- `FROM sales s JOIN purchases p ON p.InventoryId = s.InventoryId`. -/
def joinedSP (db : DBInput) : List (SaleRecord × PurchaseRecord) :=
  db.sales.flatMap fun s =>
    (db.purchases.filter fun p => p.InventoryId == s.InventoryId).map fun p => (s, p)

/-- Grouping key of the `sales_agg` CTE: `(p.VendorNumber, p.VendorName, s.Brand)`. -/
def saKey (sp : SaleRecord × PurchaseRecord) : Nat × String × Nat :=
  (sp.2.VendorNumber, sp.2.VendorName, sp.1.Brand)

/-- A row of the `sales_agg` CTE. -/
structure SalesAggRow where
  VendorNumber : Nat
  VendorName : String
  Brand : Nat
  TotalSalesQuantity : ℚ
  TotalSalesDollars : ℚ
  deriving DecidableEq

/-- The `sales_agg` row for one group key. -/
def salesAggRow (db : DBInput) (k : Nat × String × Nat) : SalesAggRow :=
  { VendorNumber := k.1
    VendorName := k.2.1
    Brand := k.2.2
    TotalSalesQuantity := sumBy (fun sp => sp.1.SalesQuantity) (groupRows saKey (joinedSP db) k)
    TotalSalesDollars := sumBy (fun sp => sp.1.SalesDollars) (groupRows saKey (joinedSP db) k) }

/-- The `sales_agg` CTE of `build_vendor_sales_summary`. -/
def sales_agg (db : DBInput) : List SalesAggRow :=
  (groupKeys saKey (joinedSP db)).map (salesAggRow db)

/-- Grouping key of the `brand_purch` CTE: `(p.VendorNumber, p.Brand)`. -/
def bpKey (p : PurchaseRecord) : Nat × Nat := (p.VendorNumber, p.Brand)

/-- A row of the `brand_purch` CTE. -/
structure BrandPurchRow where
  VendorNumber : Nat
  Brand : Nat
  BrandPurchaseQuantity : ℚ
  BrandPurchaseDollars : ℚ
  deriving DecidableEq

/-- The `brand_purch` row for one group key. -/
def brandPurchRow (db : DBInput) (k : Nat × Nat) : BrandPurchRow :=
  { VendorNumber := k.1
    Brand := k.2
    BrandPurchaseQuantity := sumBy (fun p => p.Quantity) (groupRows bpKey db.purchases k)
    BrandPurchaseDollars :=
      sumBy (fun p => p.PurchasePrice * p.Quantity) (groupRows bpKey db.purchases k) }

/-- The `brand_purch` CTE of `build_vendor_sales_summary`. -/
def brand_purch (db : DBInput) : List BrandPurchRow :=
  (groupKeys bpKey db.purchases).map (brandPurchRow db)

/-- A row of the `bp_vendor_tot` CTE. -/
structure VendorTotRow where
  VendorNumber : Nat
  VendorBrandPurchDollars : ℚ
  deriving DecidableEq

/-- The `bp_vendor_tot` row for one vendor. -/
def vendorTotRow (db : DBInput) (v : Nat) : VendorTotRow :=
  { VendorNumber := v
    VendorBrandPurchDollars :=
      sumBy (fun b => b.BrandPurchaseDollars)
        (groupRows (fun b => b.VendorNumber) (brand_purch db) v) }

/-- The `bp_vendor_tot` CTE of `build_vendor_sales_summary`. -/
def bp_vendor_tot (db : DBInput) : List VendorTotRow :=
  (groupKeys (fun b => b.VendorNumber) (brand_purch db)).map (vendorTotRow db)

/-- A row of the `vi` CTE. -/
structure ViRow where
  VendorNumber : Nat
  InvoicePurchaseQuantity : ℚ
  InvoicePurchaseDollars : ℚ
  Freight : ℚ
  deriving DecidableEq

/-- The `vi` row for one vendor. -/
def viRow (db : DBInput) (v : Nat) : ViRow :=
  { VendorNumber := v
    InvoicePurchaseQuantity :=
      sumBy (fun i => i.Quantity) (groupRows (fun i => i.VendorNumber) db.vendor_invoice v)
    InvoicePurchaseDollars :=
      sumBy (fun i => i.Dollars) (groupRows (fun i => i.VendorNumber) db.vendor_invoice v)
    Freight :=
      sumBy (fun i => i.Freight) (groupRows (fun i => i.VendorNumber) db.vendor_invoice v) }

/-- The `vi` CTE of `build_vendor_sales_summary`. -/
def viAgg (db : DBInput) : List ViRow :=
  (groupKeys (fun i => i.VendorNumber) db.vendor_invoice).map (viRow db)

/-- A row of the derived table `vendor_sales_summary`. -/
structure SummaryRow where
  VendorNumber : Nat
  VendorName : String
  Brand : Nat
  TotalSalesQuantity : ℚ
  TotalSalesDollars : ℚ
  TotalPurchaseQuantity : ℚ
  TotalPurchaseDollars : ℚ
  FreightCost : ℚ
  GrossProfit : ℚ
  ProfitMargin : ℚ
  deriving DecidableEq

/-- One row of `vendor_sales_summary`: the `joined` CTE (left joins of the
sales aggregate with the purchase, vendor-total and invoice aggregates, with
`COALESCE(..., 0)`) followed by the outer `SELECT` adding `GrossProfit`
and `ProfitMargin`. -/
def summaryRow (db : DBInput) (k : Nat × String × Nat) : SummaryRow :=
  let s := salesAggRow db k
  let bp := (brand_purch db).find? fun b => (b.VendorNumber, b.Brand) == (s.VendorNumber, s.Brand)
  let t := (bp_vendor_tot db).find? fun r => r.VendorNumber == s.VendorNumber
  let v := (viAgg db).find? fun r => r.VendorNumber == s.VendorNumber
  let bpQ := (bp.map fun b => b.BrandPurchaseQuantity).getD 0
  let bpD := (bp.map fun b => b.BrandPurchaseDollars).getD 0
  let totD := (t.map fun r => r.VendorBrandPurchDollars).getD 0
  let fr := (v.map fun r => r.Freight).getD 0
  let fc := if 0 < fr ∧ 0 < totD then fr * bpD / totD else 0
  { VendorNumber := s.VendorNumber
    VendorName := s.VendorName
    Brand := s.Brand
    TotalSalesQuantity := s.TotalSalesQuantity
    TotalSalesDollars := s.TotalSalesDollars
    TotalPurchaseQuantity := bpQ
    TotalPurchaseDollars := bpD
    FreightCost := fc
    GrossProfit := s.TotalSalesDollars - bpD - fc
    ProfitMargin :=
      if 0 < s.TotalSalesDollars then
        100 * (s.TotalSalesDollars - bpD - fc) / s.TotalSalesDollars
      else 0 }

/-- The derived table `vendor_sales_summary` (`build_vendor_sales_summary`). -/
def vendor_sales_summary (db : DBInput) : List SummaryRow :=
  (groupKeys saKey (joinedSP db)).map (summaryRow db)

/-- A row of the derived table `vendor_summary_by_vendor`. -/
structure RollupRow where
  VendorNumber : Nat
  VendorName : String
  TotalSalesDol_in_summary : ℚ
  TotalSalesQty : ℚ
  TotalPurchaseDol : ℚ
  TotalPurchaseQty : ℚ
  FreightCost : ℚ
  GrossProfit : ℚ
  ProfitMargin : ℚ
  BrandCount : Nat
  deriving DecidableEq

/-- One row of `vendor_summary_by_vendor`: `vendor_sales_summary` grouped by
`VendorNumber` with `MAX(VendorName)`, sums, a recomputed margin and
`COUNT(DISTINCT Brand)`. -/
def rollupRow (db : DBInput) (v : Nat) : RollupRow :=
  let g := groupRows (fun r => r.VendorNumber) (vendor_sales_summary db) v
  { VendorNumber := v
    VendorName := sqlMaxStr (g.map fun r => r.VendorName)
    TotalSalesDol_in_summary := sumBy (fun r => r.TotalSalesDollars) g
    TotalSalesQty := sumBy (fun r => r.TotalSalesQuantity) g
    TotalPurchaseDol := sumBy (fun r => r.TotalPurchaseDollars) g
    TotalPurchaseQty := sumBy (fun r => r.TotalPurchaseQuantity) g
    FreightCost := sumBy (fun r => r.FreightCost) g
    GrossProfit :=
      sumBy (fun r => r.TotalSalesDollars - r.TotalPurchaseDollars - r.FreightCost) g
    ProfitMargin :=
      if 0 < sumBy (fun r => r.TotalSalesDollars) g then
        100 * (sumBy (fun r => r.TotalSalesDollars) g
                - sumBy (fun r => r.TotalPurchaseDollars) g
                - sumBy (fun r => r.FreightCost) g)
          / sumBy (fun r => r.TotalSalesDollars) g
      else 0
    BrandCount := ((g.map fun r => r.Brand).dedup).length }

/-- The derived table `vendor_summary_by_vendor` (`build_vendor_rollup`). -/
def vendor_summary_by_vendor (db : DBInput) : List RollupRow :=
  (groupKeys (fun r => r.VendorNumber) (vendor_sales_summary db)).map (rollupRow db)

/-- A row of the derived table `spend_by_vendor`. -/
structure SpendRow where
  VendorNumber : Nat
  TotalPurchaseDollars : ℚ
  TotalSalesDollars : ℚ
  deriving DecidableEq

/-- One row of `spend_by_vendor`: invoice dollars per vendor and a correlated
subquery summing that vendor's summary sales dollars (`COALESCE(..., 0)`). -/
def spendRow (db : DBInput) (v : Nat) : SpendRow :=
  { VendorNumber := v
    TotalPurchaseDollars :=
      sumBy (fun i => i.Dollars) (groupRows (fun i => i.VendorNumber) db.vendor_invoice v)
    TotalSalesDollars :=
      sumBy (fun r => r.TotalSalesDollars)
        ((vendor_sales_summary db).filter fun r => r.VendorNumber == v) }

/-- The derived table `spend_by_vendor` (`build_spend_and_risk`). -/
def spend_by_vendor (db : DBInput) : List SpendRow :=
  (groupKeys (fun i => i.VendorNumber) db.vendor_invoice).map (spendRow db)

/-- A row of the derived table `vendor_risk_flags`. -/
structure RiskRow where
  VendorNumber : Nat
  neg_SalesQty : Nat
  neg_SalesDol : Nat
  neg_PurchQty : Nat
  neg_PurchDol : Nat
  neg_Freight : Nat
  deriving DecidableEq

/-- One row of `vendor_risk_flags`: per-vendor counts of negative metrics. -/
def riskRow (db : DBInput) (v : Nat) : RiskRow :=
  let g := groupRows (fun r => r.VendorNumber) (vendor_sales_summary db) v
  { VendorNumber := v
    neg_SalesQty := g.countP fun r => decide (r.TotalSalesQuantity < 0)
    neg_SalesDol := g.countP fun r => decide (r.TotalSalesDollars < 0)
    neg_PurchQty := g.countP fun r => decide (r.TotalPurchaseQuantity < 0)
    neg_PurchDol := g.countP fun r => decide (r.TotalPurchaseDollars < 0)
    neg_Freight := g.countP fun r => decide (r.FreightCost < 0) }

/-- The derived table `vendor_risk_flags` (`build_spend_and_risk`). -/
def vendor_risk_flags (db : DBInput) : List RiskRow :=
  (groupKeys (fun r => r.VendorNumber) (vendor_sales_summary db)).map (riskRow db)

/-- Grouping key of `build_brand_pricing`: `(VendorNumber, VendorName, Brand)`. -/
def bprKey (r : SummaryRow) : Nat × String × Nat := (r.VendorNumber, r.VendorName, r.Brand)

/-- A row of the derived table `brand_pricing`. -/
structure BrandPricingRow where
  VendorNumber : Nat
  VendorName : String
  Brand : Nat
  TotalSalesQuantity : ℚ
  TotalSalesDollars : ℚ
  TotalPurchaseDollars : ℚ
  FreightCost : ℚ
  deriving DecidableEq

/-- One row of `brand_pricing`: re-aggregation of the summary. -/
def brandPricingRow (db : DBInput) (k : Nat × String × Nat) : BrandPricingRow :=
  let g := groupRows bprKey (vendor_sales_summary db) k
  { VendorNumber := k.1
    VendorName := k.2.1
    Brand := k.2.2
    TotalSalesQuantity := sumBy (fun r => r.TotalSalesQuantity) g
    TotalSalesDollars := sumBy (fun r => r.TotalSalesDollars) g
    TotalPurchaseDollars := sumBy (fun r => r.TotalPurchaseDollars) g
    FreightCost := sumBy (fun r => r.FreightCost) g }

/-- The derived table `brand_pricing` (`build_brand_pricing`). -/
def brand_pricing (db : DBInput) : List BrandPricingRow :=
  (groupKeys bprKey (vendor_sales_summary db)).map (brandPricingRow db)

/-- `AvgSalesPrice` of the `b` CTE of `build_brand_pricing_opps`: guarded on
`TotalSalesDollars > 0`, but dividing by `TotalSalesQuantity`, which SQLite
turns into `NULL` when that quantity is zero. -/
def avgSalesPrice (r : BrandPricingRow) : Option ℚ :=
  if 0 < r.TotalSalesDollars then sqlDiv r.TotalSalesDollars r.TotalSalesQuantity else none

/-- `AvgPurchasePrice` of the `b` CTE (computed, but not selected into the
final `brand_pricing_opportunities` table). -/
def avgPurchasePrice (r : BrandPricingRow) : Option ℚ :=
  if 0 < r.TotalPurchaseDollars then sqlDiv r.TotalPurchaseDollars r.TotalSalesQuantity else none

/-- `RequiredSalesDollars` of the `need` CTE: `0` when the cost basis is not
positive, else cost basis over `1 - target` (SQLite `NULL` when `target = 1`). -/
def requiredSalesDollars (target : ℚ) (r : BrandPricingRow) : Option ℚ :=
  if r.TotalPurchaseDollars + r.FreightCost ≤ 0 then some 0
  else sqlDiv (r.TotalPurchaseDollars + r.FreightCost) (1 - target)

/-- A row of the derived table `brand_pricing_opportunities`. -/
structure OppRow where
  VendorNumber : Nat
  VendorName : String
  Brand : Nat
  TotalSalesQuantity : ℚ
  TotalSalesDollars : ℚ
  TotalPurchaseDollars : ℚ
  FreightCost : ℚ
  AvgSalesPrice : Option ℚ
  TargetMargin : ℚ
  RequiredSalesDollars : Option ℚ
  UpsideDollars : ℚ
  NeededPriceDeltaPerUnit : Option ℚ
  deriving DecidableEq

/-- One row of `brand_pricing_opportunities` (`calc` CTE plus final `SELECT`).
A SQL comparison with a `NULL` `RequiredSalesDollars` is not true, so both
`CASE` guards then fall through to their `ELSE`. -/
def oppRow (target : ℚ) (r : BrandPricingRow) : OppRow :=
  let req := requiredSalesDollars target r
  let upside : ℚ :=
    match req with
    | some rq => if r.TotalSalesDollars < rq then rq - r.TotalSalesDollars else 0
    | none => 0
  let delta : Option ℚ :=
    if 0 < r.TotalSalesQuantity then
      some (match req with
        | some rq =>
          if r.TotalSalesDollars < rq then (rq - r.TotalSalesDollars) / r.TotalSalesQuantity
          else 0
        | none => 0)
    else none
  { VendorNumber := r.VendorNumber
    VendorName := r.VendorName
    Brand := r.Brand
    TotalSalesQuantity := r.TotalSalesQuantity
    TotalSalesDollars := r.TotalSalesDollars
    TotalPurchaseDollars := r.TotalPurchaseDollars
    FreightCost := r.FreightCost
    AvgSalesPrice := avgSalesPrice r
    TargetMargin := target
    RequiredSalesDollars := req
    UpsideDollars := upside
    NeededPriceDeltaPerUnit := delta }

/-- The derived table `brand_pricing_opportunities` (`build_brand_pricing_opps`). -/
def brand_pricing_opportunities (db : DBInput) (target : ℚ) : List OppRow :=
  (brand_pricing db).map (oppRow target)

/-- A row of the derived table `final_vendor`. -/
structure FinalVendorRow where
  VendorNumber : Nat
  VendorName : String
  TotalSalesDollars : ℚ
  TotalSalesQuantity : ℚ
  TotalPurchaseDollars : ℚ
  TotalPurchaseQuantity : ℚ
  FreightCost : ℚ
  GrossProfit : ℚ
  CurrentMargin : ℚ
  TargetMargin : Option ℚ
  RequiredSalesDollars : Option ℚ
  UpsideDollars : Option ℚ
  NeededPriceDeltaPerUnit : Option ℚ
  deriving DecidableEq

/-- The derived table `final_vendor` (`build_finals`): the rollup reshaped,
with all pricing-projection columns `NULL`. -/
def final_vendor (db : DBInput) : List FinalVendorRow :=
  (vendor_summary_by_vendor db).map fun v =>
    { VendorNumber := v.VendorNumber
      VendorName := v.VendorName
      TotalSalesDollars := v.TotalSalesDol_in_summary
      TotalSalesQuantity := v.TotalSalesQty
      TotalPurchaseDollars := v.TotalPurchaseDol
      TotalPurchaseQuantity := v.TotalPurchaseQty
      FreightCost := v.FreightCost
      GrossProfit := v.GrossProfit
      CurrentMargin := v.ProfitMargin
      TargetMargin := none
      RequiredSalesDollars := none
      UpsideDollars := none
      NeededPriceDeltaPerUnit := none }

/-- A row of the derived table `final_brand`. -/
structure FinalBrandRow where
  VendorNumber : Nat
  VendorName : String
  Brand : Nat
  TotalSalesDollars : ℚ
  TotalSalesQuantity : ℚ
  TotalPurchaseDollars : ℚ
  TotalPurchaseQuantity : ℚ
  FreightCost : ℚ
  GrossProfit : ℚ
  CurrentMargin : ℚ
  TargetMargin : Option ℚ
  RequiredSalesDollars : Option ℚ
  UpsideDollars : Option ℚ
  NeededPriceDeltaPerUnit : Option ℚ
  deriving DecidableEq

/-- One `final_brand` row from a summary row and an optional matched
pricing-opportunity row (`NULL`-padded when unmatched). -/
def finalBrandRow (s : SummaryRow) (o : Option OppRow) : FinalBrandRow :=
  { VendorNumber := s.VendorNumber
    VendorName := s.VendorName
    Brand := s.Brand
    TotalSalesDollars := s.TotalSalesDollars
    TotalSalesQuantity := s.TotalSalesQuantity
    TotalPurchaseDollars := s.TotalPurchaseDollars
    TotalPurchaseQuantity := s.TotalPurchaseQuantity
    FreightCost := s.FreightCost
    GrossProfit := s.GrossProfit
    CurrentMargin := s.ProfitMargin
    TargetMargin := o.map fun x => x.TargetMargin
    RequiredSalesDollars := o.bind fun x => x.RequiredSalesDollars
    UpsideDollars := o.map fun x => x.UpsideDollars
    NeededPriceDeltaPerUnit := o.bind fun x => x.NeededPriceDeltaPerUnit }

/-- The derived table `final_brand` (`build_finals`): summary `LEFT JOIN`
pricing opportunities on `(VendorNumber, Brand)`. -/
def final_brand (db : DBInput) (target : ℚ) : List FinalBrandRow :=
  (vendor_sales_summary db).flatMap fun s =>
    let ms := (brand_pricing_opportunities db target).filter fun o =>
      (o.VendorNumber, o.Brand) == (s.VendorNumber, s.Brand)
    if ms.isEmpty then [finalBrandRow s none] else ms.map fun o => finalBrandRow s (some o)

/-- A row of the derived table `final_all`. -/
structure FinalAllRow where
  Level : String
  VendorNumber : Nat
  VendorName : String
  Brand : Option Nat
  TotalSalesDollars : ℚ
  TotalSalesQuantity : ℚ
  TotalPurchaseDollars : ℚ
  TotalPurchaseQuantity : ℚ
  FreightCost : ℚ
  GrossProfit : ℚ
  CurrentMargin : ℚ
  BrandCount : Option Nat
  TargetMargin : Option ℚ
  RequiredSalesDollars : Option ℚ
  UpsideDollars : Option ℚ
  NeededPriceDeltaPerUnit : Option ℚ
  deriving DecidableEq

/-- The derived table `final_all` (`build_finals`): `final_vendor` rows
tagged `vendor` followed by `final_brand` rows tagged `brand` (`UNION ALL`). -/
def final_all (db : DBInput) (target : ℚ) : List FinalAllRow :=
  ((final_vendor db).map fun v =>
    { Level := "vendor"
      VendorNumber := v.VendorNumber
      VendorName := v.VendorName
      Brand := none
      TotalSalesDollars := v.TotalSalesDollars
      TotalSalesQuantity := v.TotalSalesQuantity
      TotalPurchaseDollars := v.TotalPurchaseDollars
      TotalPurchaseQuantity := v.TotalPurchaseQuantity
      FreightCost := v.FreightCost
      GrossProfit := v.GrossProfit
      CurrentMargin := v.CurrentMargin
      BrandCount := none
      TargetMargin := v.TargetMargin
      RequiredSalesDollars := v.RequiredSalesDollars
      UpsideDollars := v.UpsideDollars
      NeededPriceDeltaPerUnit := v.NeededPriceDeltaPerUnit })
  ++ ((final_brand db target).map fun b =>
    { Level := "brand"
      VendorNumber := b.VendorNumber
      VendorName := b.VendorName
      Brand := some b.Brand
      TotalSalesDollars := b.TotalSalesDollars
      TotalSalesQuantity := b.TotalSalesQuantity
      TotalPurchaseDollars := b.TotalPurchaseDollars
      TotalPurchaseQuantity := b.TotalPurchaseQuantity
      FreightCost := b.FreightCost
      GrossProfit := b.GrossProfit
      CurrentMargin := b.CurrentMargin
      BrandCount := none
      TargetMargin := b.TargetMargin
      RequiredSalesDollars := b.RequiredSalesDollars
      UpsideDollars := b.UpsideDollars
      NeededPriceDeltaPerUnit := b.NeededPriceDeltaPerUnit })

/-- The state of the SQLite database: the three base tables (absent when the
`Option` is `none`) and the nine derived tables the pipeline rebuilds. -/
structure Database where
  sales : Option (List SaleRecord)
  purchases : Option (List PurchaseRecord)
  vendor_invoice : Option (List VendorInvoiceRecord)
  t_vendor_sales_summary : Option (List SummaryRow)
  t_vendor_summary_by_vendor : Option (List RollupRow)
  t_spend_by_vendor : Option (List SpendRow)
  t_vendor_risk_flags : Option (List RiskRow)
  t_brand_pricing : Option (List BrandPricingRow)
  t_brand_pricing_opportunities : Option (List OppRow)
  t_final_vendor : Option (List FinalVendorRow)
  t_final_brand : Option (List FinalBrandRow)
  t_final_all : Option (List FinalAllRow)
  deriving DecidableEq

/-- `require_tables`: the names among `["purchases", "vendor_invoice",
"sales"]` (in that order, as in `main`) that are absent from the database. -/
def missingTables (db : Database) : List String :=
  (if db.purchases.isSome then [] else ["purchases"]) ++
  (if db.vendor_invoice.isSome then [] else ["vendor_invoice"]) ++
  (if db.sales.isSome then [] else ["sales"])

/-- The message of the `RuntimeError` raised by `require_tables`. -/
def missingMsg (missing : List String) : String :=
  "Missing base tables in DB: " ++ toString missing

/-- All build steps of `main` after the precondition check: every derived
table is dropped and recreated from the base tables alone. -/
def rebuildAll (s : List SaleRecord) (p : List PurchaseRecord)
    (vi : List VendorInvoiceRecord) (target : ℚ) (db : Database) : Database :=
  let inp : DBInput := { sales := s, purchases := p, vendor_invoice := vi }
  { db with
    t_vendor_sales_summary := some (vendor_sales_summary inp)
    t_vendor_summary_by_vendor := some (vendor_summary_by_vendor inp)
    t_spend_by_vendor := some (spend_by_vendor inp)
    t_vendor_risk_flags := some (vendor_risk_flags inp)
    t_brand_pricing := some (brand_pricing inp)
    t_brand_pricing_opportunities := some (brand_pricing_opportunities inp target)
    t_final_vendor := some (final_vendor inp)
    t_final_brand := some (final_brand inp target)
    t_final_all := some (final_all inp target) }

/-- The pipeline body of `main`: `require_tables` first — raising one error
naming all missing base tables before any index creation or table rebuild —
then all build steps. -/
def runPipeline (db : Database) (target : ℚ) : Except String Database :=
  if missingTables db = [] then
    match db.purchases, db.vendor_invoice, db.sales with
    | some p, some vi, some s => Except.ok (rebuildAll s p vi target db)
    | _, _, _ => Except.error (missingMsg (missingTables db))
  else Except.error (missingMsg (missingTables db))

/-- A vendor's total invoice freight: `SUM(Freight)` of its `vendor_invoice`
rows (0 when it has none, as the summary query coalesces). -/
def invoiceFreight (db : DBInput) (v : Nat) : ℚ :=
  sumBy (fun i => i.Freight) (groupRows (fun i => i.VendorNumber) db.vendor_invoice v)

/-- A brand's purchase dollars: `SUM(PurchasePrice * Quantity)` over the
purchases of one `(VendorNumber, Brand)` pair. -/
def brandPurchDollars (db : DBInput) (v b : Nat) : ℚ :=
  sumBy (fun p => p.PurchasePrice * p.Quantity) (groupRows bpKey db.purchases (v, b))

/-- A vendor's total brand-purchase dollars: `SUM(PurchasePrice * Quantity)`
over all of the vendor's purchase rows. -/
def vendorPurchDollars (db : DBInput) (v : Nat) : ℚ :=
  sumBy (fun p => p.PurchasePrice * p.Quantity)
    (db.purchases.filter fun p => p.VendorNumber == v)

/-- One vendor's rows of `vendor_sales_summary`. -/
def vendorRows (db : DBInput) (v : Nat) : List SummaryRow :=
  (vendor_sales_summary db).filter fun r => r.VendorNumber == v

/-- The sum of allocated `FreightCost` over one vendor's summary rows. -/
def vendorFreightSum (db : DBInput) (v : Nat) : ℚ :=
  sumBy (fun r => r.FreightCost) (vendorRows db v)

/-- The brands of one vendor's summary rows (with multiplicity). -/
def summaryBrands (db : DBInput) (v : Nat) : List Nat :=
  (vendorRows db v).map fun r => r.Brand

/-- The brands of one vendor's `brand_purch` rows (each purchased brand once). -/
def purchBrands (db : DBInput) (v : Nat) : List Nat :=
  ((brand_purch db).filter fun b => b.VendorNumber == v).map fun b => b.Brand

/-- The `(VendorNumber, VendorName, Brand)` triple of a summary row. -/
def summaryTriple (r : SummaryRow) : Nat × String × Nat :=
  (r.VendorNumber, r.VendorName, r.Brand)

/-- The `(VendorNumber, Brand)` pair of a summary row. -/
def summaryPair (r : SummaryRow) : Nat × Nat :=
  (r.VendorNumber, r.Brand)

/-- Example input: vendor 1 with invoice freight 100 and two sold brands
whose purchase dollars are 300 and 700 (the spec's freight example). -/
def exDB : DBInput :=
  { sales :=
      [ { InventoryId := 1, Brand := 10, SalesQuantity := 3, SalesDollars := 500 },
        { InventoryId := 2, Brand := 20, SalesQuantity := 4, SalesDollars := 900 } ]
    purchases :=
      [ { InventoryId := 1, VendorNumber := 1, VendorName := "V1", Brand := 10,
          Quantity := 2, PurchasePrice := 150 },
        { InventoryId := 2, VendorNumber := 1, VendorName := "V1", Brand := 20,
          Quantity := 1, PurchasePrice := 700 } ]
    vendor_invoice :=
      [ { VendorNumber := 1, Quantity := 3, Dollars := 1000, Freight := 100 } ] }

/-- Counterexample input for the freight-sum claim: vendor 1 purchased brands
10 (300 dollars) and 20 (700 dollars) but only brand 10 was ever sold, so
only 30 of the 100 freight is allocated across summary rows. -/
def cdb1 : DBInput :=
  { sales :=
      [ { InventoryId := 1, Brand := 10, SalesQuantity := 1, SalesDollars := 500 } ]
    purchases :=
      [ { InventoryId := 1, VendorNumber := 1, VendorName := "V", Brand := 10,
          Quantity := 1, PurchasePrice := 300 },
        { InventoryId := 2, VendorNumber := 1, VendorName := "V", Brand := 20,
          Quantity := 1, PurchasePrice := 700 } ]
    vendor_invoice :=
      [ { VendorNumber := 1, Quantity := 2, Dollars := 1000, Freight := 100 } ] }

/-- Counterexample input for `(VendorNumber, Brand)` uniqueness: vendor 1
appears in purchases under two names, so the summary keeps two rows for the
single pair `(1, 10)`. -/
def cdb2 : DBInput :=
  { sales :=
      [ { InventoryId := 1, Brand := 10, SalesQuantity := 1, SalesDollars := 1 },
        { InventoryId := 2, Brand := 10, SalesQuantity := 1, SalesDollars := 1 } ]
    purchases :=
      [ { InventoryId := 1, VendorNumber := 1, VendorName := "A", Brand := 10,
          Quantity := 1, PurchasePrice := 1 },
        { InventoryId := 2, VendorNumber := 1, VendorName := "B", Brand := 10,
          Quantity := 1, PurchasePrice := 1 } ]
    vendor_invoice := [] }

/-- Example input matching the spec's pricing example: one brand with
purchase dollars 600, freight 0, sales dollars 800 and sales quantity 10. -/
def exDB4 : DBInput :=
  { sales :=
      [ { InventoryId := 1, Brand := 10, SalesQuantity := 10, SalesDollars := 800 } ]
    purchases :=
      [ { InventoryId := 1, VendorNumber := 1, VendorName := "V", Brand := 10,
          Quantity := 1, PurchasePrice := 600 } ]
    vendor_invoice :=
      [ { VendorNumber := 1, Quantity := 1, Dollars := 600, Freight := 0 } ] }

/-- Example input with a sold brand whose sales dollars and quantity are 0. -/
def exDB7 : DBInput :=
  { sales :=
      [ { InventoryId := 1, Brand := 10, SalesQuantity := 0, SalesDollars := 0 } ]
    purchases :=
      [ { InventoryId := 1, VendorNumber := 1, VendorName := "V", Brand := 10,
          Quantity := 1, PurchasePrice := 5 } ]
    vendor_invoice :=
      [ { VendorNumber := 1, Quantity := 1, Dollars := 5, Freight := 3 } ] }

/-- A database holding all three (empty) base tables and no derived tables. -/
def exDb9 : Database :=
  { sales := some []
    purchases := some []
    vendor_invoice := some []
    t_vendor_sales_summary := none
    t_vendor_summary_by_vendor := none
    t_spend_by_vendor := none
    t_vendor_risk_flags := none
    t_brand_pricing := none
    t_brand_pricing_opportunities := none
    t_final_vendor := none
    t_final_brand := none
    t_final_all := none }

/-- A database whose `sales` base table is absent. -/
def exDb8 : Database :=
  { exDb9 with sales := none }

/-! ### List-level infrastructure lemmas -/

theorem find?_map_key {κ β : Type} [BEq κ] [LawfulBEq κ] (l : List κ) (f : κ → β) (p : β → Bool)
    (k : κ) (hp : ∀ x, p (f x) = (x == k)) :
    (l.map f).find? p = if k ∈ l then some (f k) else none := by
  induction l with
  | nil => simp
  | cons x l ih =>
    by_cases hxk : x = k
    · subst hxk
      have hpx : p (f x) = true := by rw [hp]; simp
      rw [List.map_cons, List.find?_cons_of_pos _ hpx]
      simp [List.mem_cons]
    · have hpx : ¬ p (f x) = true := by rw [hp]; simp [hxk]
      rw [List.map_cons, List.find?_cons_of_neg _ hpx, ih]
      have hkx : k ≠ x := fun h => hxk h.symm
      simp [List.mem_cons, hkx]

theorem sum_map_zero {κ : Type} (ks : List κ) : (ks.map fun _ => (0 : ℚ)).sum = 0 := by
  induction ks with
  | nil => rfl
  | cons k ks ih => simp [ih]

theorem sum_map_add {κ : Type} (ks : List κ) (g h : κ → ℚ) :
    (ks.map fun k => g k + h k).sum = (ks.map g).sum + (ks.map h).sum := by
  induction ks with
  | nil => simp
  | cons k ks ih =>
    simp only [List.map_cons, List.sum_cons, ih]
    ring

theorem sumBy_sub {α : Type} (f g : α → ℚ) (xs : List α) :
    sumBy (fun x => f x - g x) xs = sumBy f xs - sumBy g xs := by
  induction xs with
  | nil => simp [sumBy]
  | cons x xs ih =>
    simp only [sumBy, List.map_cons, List.sum_cons] at *
    rw [ih]
    ring

theorem sum_if_mem {κ : Type} [DecidableEq κ] (ks : List κ) (hks : ks.Nodup) (a : κ) (c : ℚ) :
    (ks.map fun k => if a = k then c else 0).sum = if a ∈ ks then c else 0 := by
  induction ks with
  | nil => simp
  | cons k ks ih =>
    have hnd := List.nodup_cons.mp hks
    by_cases hak : a = k
    · subst hak
      have hz : (ks.map fun k => if a = k then c else 0) = ks.map fun _ => (0 : ℚ) := by
        apply List.map_congr_left
        intro x hx
        have hax : a ≠ x := fun h => hnd.1 (h ▸ hx)
        simp [hax]
      simp [List.map_cons, hz, sum_map_zero]
    · simp [List.map_cons, hak, ih hnd.2, List.mem_cons]

theorem sumBy_groupRows_cons {α κ : Type} [BEq κ] [LawfulBEq κ] [DecidableEq κ] (key : α → κ)
    (f : α → ℚ) (x : α) (xs : List α) (k : κ) :
    sumBy f (groupRows key (x :: xs) k)
      = (if key x = k then f x else 0) + sumBy f (groupRows key xs k) := by
  simp only [groupRows, List.filter_cons, sumBy]
  by_cases h : key x = k
  · simp [h]
  · simp [h]

theorem sum_groupRows {α κ : Type} [BEq κ] [LawfulBEq κ] [DecidableEq κ] (key : α → κ)
    (f : α → ℚ) (ks : List κ) (hks : ks.Nodup) (xs : List α) :
    (ks.map fun k => sumBy f (groupRows key xs k)).sum
      = sumBy f (xs.filter fun x => decide (key x ∈ ks)) := by
  induction xs with
  | nil =>
    simp [groupRows, sumBy, sum_map_zero]
  | cons x xs ih =>
    have h1 : (ks.map fun k => sumBy f (groupRows key (x :: xs) k))
        = ks.map fun k => (if key x = k then f x else 0) + sumBy f (groupRows key xs k) := by
      apply List.map_congr_left
      intro k _
      exact sumBy_groupRows_cons key f x xs k
    rw [h1, sum_map_add, sum_if_mem ks hks, ih]
    simp only [List.filter_cons]
    by_cases h : key x ∈ ks
    · simp [h, sumBy]
    · simp [h, sumBy]

theorem mem_groupKeys {α κ : Type} [DecidableEq κ] {key : α → κ} {xs : List α} {k : κ} :
    k ∈ groupKeys key xs ↔ k ∈ xs.map key := List.mem_dedup

theorem nodup_groupKeys {α κ : Type} [DecidableEq κ] (key : α → κ) (xs : List α) :
    (groupKeys key xs).Nodup := List.nodup_dedup _

theorem groupRows_eq_nil {α κ : Type} [BEq κ] [LawfulBEq κ] {key : α → κ} {xs : List α} {k : κ}
    (h : k ∉ xs.map key) : groupRows key xs k = [] := by
  apply List.filter_eq_nil_iff.mpr
  intro x hx hc
  have hxk : key x = k := by simpa using hc
  exact h (hxk ▸ List.mem_map_of_mem key hx)

/-! ### Lookup lemmas for the three left joins of the summary query -/

theorem viAgg_lookup (db : DBInput) (v : Nat) :
    ((((viAgg db).find? fun r => r.VendorNumber == v).map fun r => r.Freight).getD 0)
      = invoiceFreight db v := by
  have h := find?_map_key (groupKeys (fun i => i.VendorNumber) db.vendor_invoice) (viRow db)
      (fun r => r.VendorNumber == v) v (fun x => rfl)
  rw [viAgg, h]
  by_cases hv : v ∈ groupKeys (fun i => i.VendorNumber) db.vendor_invoice
  · simp only [hv, if_true, Option.map_some', Option.getD_some]
    rfl
  · simp only [hv, if_false, Option.map_none', Option.getD_none]
    have hg : groupRows (fun i => i.VendorNumber) db.vendor_invoice v = [] :=
      groupRows_eq_nil (fun hm => hv (mem_groupKeys.mpr hm))
    simp [invoiceFreight, hg, sumBy]

theorem brand_purch_filter_eq (db : DBInput) (v : Nat) :
    ((brand_purch db).filter fun b => b.VendorNumber == v)
      = ((groupKeys bpKey db.purchases).filter fun k => k.1 == v).map (brandPurchRow db) := by
  show ((groupKeys bpKey db.purchases).map (brandPurchRow db)).filter
      (fun b => b.VendorNumber == v) = _
  rw [List.filter_map]
  rfl

theorem sum_brand_purch_vendor (db : DBInput) (v : Nat) :
    sumBy (fun b => b.BrandPurchaseDollars) ((brand_purch db).filter fun b => b.VendorNumber == v)
      = vendorPurchDollars db v := by
  rw [brand_purch_filter_eq]
  have h1 : sumBy (fun b => b.BrandPurchaseDollars)
      ((((groupKeys bpKey db.purchases).filter fun k => k.1 == v)).map (brandPurchRow db))
      = ((((groupKeys bpKey db.purchases).filter fun k => k.1 == v)).map
          (fun k => sumBy (fun p => p.PurchasePrice * p.Quantity)
            (groupRows bpKey db.purchases k))).sum := by
    simp only [sumBy, List.map_map]
    rfl
  rw [h1, sum_groupRows _ _ _ ((nodup_groupKeys bpKey db.purchases).filter _)]
  unfold vendorPurchDollars sumBy
  apply congrArg List.sum
  apply congrArg (List.map fun p : PurchaseRecord => p.PurchasePrice * p.Quantity)
  apply List.filter_congr
  intro p hp
  have hmem : bpKey p ∈ groupKeys bpKey db.purchases :=
    mem_groupKeys.mpr (List.mem_map_of_mem bpKey hp)
  by_cases hv : p.VendorNumber = v
  · have hmem2 : (v, p.Brand) ∈ groupKeys bpKey db.purchases := by
      have he : bpKey p = (v, p.Brand) := by simp [bpKey, hv]
      exact he ▸ hmem
    simp [List.mem_filter, hmem2, hv, bpKey]
  · simp [List.mem_filter, hv, bpKey]

theorem bp_vendor_tot_lookup (db : DBInput) (v : Nat) :
    ((((bp_vendor_tot db).find? fun r => r.VendorNumber == v).map
        fun r => r.VendorBrandPurchDollars).getD 0) = vendorPurchDollars db v := by
  have h := find?_map_key (groupKeys (fun b => b.VendorNumber) (brand_purch db)) (vendorTotRow db)
      (fun r => r.VendorNumber == v) v (fun x => rfl)
  rw [bp_vendor_tot, h]
  by_cases hv : v ∈ groupKeys (fun b => b.VendorNumber) (brand_purch db)
  · simp only [hv, if_true, Option.map_some', Option.getD_some]
    show sumBy (fun b => b.BrandPurchaseDollars)
        ((brand_purch db).filter fun b => b.VendorNumber == v) = vendorPurchDollars db v
    exact sum_brand_purch_vendor db v
  · simp only [hv, if_false, Option.map_none', Option.getD_none]
    have hfil : (db.purchases.filter fun p => p.VendorNumber == v) = [] := by
      apply List.filter_eq_nil_iff.mpr
      intro p hp hc
      have hpv : p.VendorNumber = v := by simpa using hc
      apply hv
      apply mem_groupKeys.mpr
      have h1 : bpKey p ∈ groupKeys bpKey db.purchases :=
        mem_groupKeys.mpr (List.mem_map_of_mem bpKey hp)
      have h2 : brandPurchRow db (bpKey p) ∈ brand_purch db :=
        List.mem_map_of_mem (brandPurchRow db) h1
      have h3 : (brandPurchRow db (bpKey p)).VendorNumber = v := hpv
      exact h3 ▸ List.mem_map_of_mem (fun b => b.VendorNumber) h2
    simp [vendorPurchDollars, hfil, sumBy]

theorem brand_purch_lookup (db : DBInput) (v b : Nat) :
    ((((brand_purch db).find? fun r => (r.VendorNumber, r.Brand) == (v, b)).map
        fun r => r.BrandPurchaseDollars).getD 0) = brandPurchDollars db v b := by
  have h := find?_map_key (groupKeys bpKey db.purchases) (brandPurchRow db)
      (fun r => (r.VendorNumber, r.Brand) == (v, b)) (v, b) (fun x => rfl)
  rw [brand_purch, h]
  by_cases hk : (v, b) ∈ groupKeys bpKey db.purchases
  · simp only [hk, if_true, Option.map_some', Option.getD_some]
    rfl
  · simp only [hk, if_false, Option.map_none', Option.getD_none]
    have hg : groupRows bpKey db.purchases (v, b) = [] :=
      groupRows_eq_nil (fun hm => hk (mem_groupKeys.mpr hm))
    simp [brandPurchDollars, hg, sumBy]

/-! ### Field lemmas for `vendor_sales_summary` rows -/

theorem summaryRow_VendorNumber (db : DBInput) (k : Nat × String × Nat) :
    (summaryRow db k).VendorNumber = k.1 := rfl

theorem summaryRow_VendorName (db : DBInput) (k : Nat × String × Nat) :
    (summaryRow db k).VendorName = k.2.1 := rfl

theorem summaryRow_Brand (db : DBInput) (k : Nat × String × Nat) :
    (summaryRow db k).Brand = k.2.2 := rfl

theorem summaryRow_TotalSalesDollars (db : DBInput) (k : Nat × String × Nat) :
    (summaryRow db k).TotalSalesDollars
      = sumBy (fun sp => sp.1.SalesDollars) (groupRows saKey (joinedSP db) k) := rfl

theorem summaryRow_TotalPurchaseDollars (db : DBInput) (k : Nat × String × Nat) :
    (summaryRow db k).TotalPurchaseDollars = brandPurchDollars db k.1 k.2.2 := by
  show ((((brand_purch db).find? fun r => (r.VendorNumber, r.Brand) == (k.1, k.2.2)).map
      fun r => r.BrandPurchaseDollars).getD 0) = _
  exact brand_purch_lookup db k.1 k.2.2

theorem summaryRow_FreightCost (db : DBInput) (k : Nat × String × Nat) :
    (summaryRow db k).FreightCost
      = if 0 < invoiceFreight db k.1 ∧ 0 < vendorPurchDollars db k.1
        then invoiceFreight db k.1 * brandPurchDollars db k.1 k.2.2 / vendorPurchDollars db k.1
        else 0 := by
  show (if 0 < (((viAgg db).find? fun r => r.VendorNumber == k.1).map fun r => r.Freight).getD 0
          ∧ 0 < (((bp_vendor_tot db).find? fun r => r.VendorNumber == k.1).map
                  fun r => r.VendorBrandPurchDollars).getD 0
        then (((viAgg db).find? fun r => r.VendorNumber == k.1).map fun r => r.Freight).getD 0
              * (((brand_purch db).find? fun r =>
                    (r.VendorNumber, r.Brand) == (k.1, k.2.2)).map
                  fun r => r.BrandPurchaseDollars).getD 0
              / (((bp_vendor_tot db).find? fun r => r.VendorNumber == k.1).map
                  fun r => r.VendorBrandPurchDollars).getD 0
        else 0) = _
  rw [viAgg_lookup, bp_vendor_tot_lookup, brand_purch_lookup]

theorem summaryRow_GrossProfit (db : DBInput) (k : Nat × String × Nat) :
    (summaryRow db k).GrossProfit
      = (summaryRow db k).TotalSalesDollars - (summaryRow db k).TotalPurchaseDollars
          - (summaryRow db k).FreightCost := rfl

theorem summaryRow_ProfitMargin (db : DBInput) (k : Nat × String × Nat) :
    (summaryRow db k).ProfitMargin
      = if 0 < (summaryRow db k).TotalSalesDollars
        then 100 * (summaryRow db k).GrossProfit / (summaryRow db k).TotalSalesDollars
        else 0 := rfl

theorem mem_vendor_sales_summary {db : DBInput} {r : SummaryRow} :
    r ∈ vendor_sales_summary db
      ↔ ∃ k ∈ groupKeys saKey (joinedSP db), r = summaryRow db k := by
  simp only [vendor_sales_summary, List.mem_map]
  constructor
  · rintro ⟨k, hk, he⟩
    exact ⟨k, hk, he.symm⟩
  · rintro ⟨k, hk, he⟩
    exact ⟨k, hk, he.symm⟩

theorem vendorRows_eq (db : DBInput) (v : Nat) :
    vendorRows db v
      = ((groupKeys saKey (joinedSP db)).filter fun k => k.1 == v).map (summaryRow db) := by
  show ((groupKeys saKey (joinedSP db)).map (summaryRow db)).filter
      (fun r => r.VendorNumber == v) = _
  rw [List.filter_map]
  rfl

/-! ### Claim C5: gross profit and margin identities -/

/-- Claim C5: for every row of `vendor_sales_summary`, `GrossProfit` equals
`SalesDollars - PurchaseDollars - FreightCost` exactly (an identity, not an
approximation), and `ProfitMargin` equals `100 * GrossProfit / SalesDollars`
when `SalesDollars > 0` and `0` otherwise. -/
theorem grossProfit_margin_identity (db : DBInput) (r : SummaryRow)
    (hr : r ∈ vendor_sales_summary db) :
    r.GrossProfit = r.TotalSalesDollars - r.TotalPurchaseDollars - r.FreightCost ∧
    r.ProfitMargin
      = if 0 < r.TotalSalesDollars then 100 * r.GrossProfit / r.TotalSalesDollars else 0 := by
  obtain ⟨k, hk, he⟩ := mem_vendor_sales_summary.mp hr
  subst he
  exact ⟨summaryRow_GrossProfit db k, summaryRow_ProfitMargin db k⟩

/-! ### Claim C3: the per-row freight allocation formula -/

/-- Claim C3: for every row of `vendor_sales_summary`, `FreightCost` equals
the vendor's total invoice freight times the brand's purchase dollars divided
by the vendor's total brand-purchase dollars when both the invoice freight
and the vendor-total purchase dollars are strictly positive, and `0`
otherwise.  (The spec's 300/700 example is checked in the witness.) -/
theorem freight_allocation_per_row (db : DBInput) (r : SummaryRow)
    (hr : r ∈ vendor_sales_summary db) :
    r.FreightCost
      = if 0 < invoiceFreight db r.VendorNumber ∧ 0 < vendorPurchDollars db r.VendorNumber
        then invoiceFreight db r.VendorNumber * brandPurchDollars db r.VendorNumber r.Brand
              / vendorPurchDollars db r.VendorNumber
        else 0 := by
  obtain ⟨k, hk, he⟩ := mem_vendor_sales_summary.mp hr
  subst he
  rw [summaryRow_VendorNumber, summaryRow_Brand]
  exact summaryRow_FreightCost db k

/-! ### Claim C6: the rollup margin is recomputed from the sums -/

theorem rollupRow_VendorNumber (db : DBInput) (v : Nat) :
    (rollupRow db v).VendorNumber = v := rfl

theorem mem_vendor_summary_by_vendor {db : DBInput} {r : RollupRow} :
    r ∈ vendor_summary_by_vendor db
      ↔ ∃ v ∈ groupKeys (fun s : SummaryRow => s.VendorNumber) (vendor_sales_summary db),
          r = rollupRow db v := by
  simp only [vendor_summary_by_vendor, List.mem_map]
  constructor
  · rintro ⟨v, hv, he⟩
    exact ⟨v, hv, he.symm⟩
  · rintro ⟨v, hv, he⟩
    exact ⟨v, hv, he.symm⟩

theorem sum_grossProfit_eq (db : DBInput) (v : Nat) :
    sumBy (fun s => s.GrossProfit) (vendorRows db v)
      = sumBy (fun s => s.TotalSalesDollars) (vendorRows db v)
        - sumBy (fun s => s.TotalPurchaseDollars) (vendorRows db v)
        - sumBy (fun s => s.FreightCost) (vendorRows db v) := by
  have h1 : sumBy (fun s => s.GrossProfit) (vendorRows db v)
      = sumBy (fun s => s.TotalSalesDollars - s.TotalPurchaseDollars - s.FreightCost)
          (vendorRows db v) := by
    unfold sumBy
    apply congrArg List.sum
    apply List.map_congr_left
    intro s hs
    have hmem : s ∈ vendor_sales_summary db := (List.mem_filter.mp hs).1
    obtain ⟨k, hk, he⟩ := mem_vendor_sales_summary.mp hmem
    subst he
    exact summaryRow_GrossProfit db k
  rw [h1, sumBy_sub, sumBy_sub]

/-- Claim C6: for every row of `vendor_summary_by_vendor`, `ProfitMargin`
equals `100 * (sum of GrossProfit over the vendor's brand rows) / (sum of
SalesDollars over those rows)` when the summed sales dollars are positive
(else `0`) — recomputed from rolled-up sums, not an average of brand margins. -/
theorem rollup_margin_recomputed (db : DBInput) (r : RollupRow)
    (hr : r ∈ vendor_summary_by_vendor db) :
    r.ProfitMargin
      = if 0 < sumBy (fun s => s.TotalSalesDollars) (vendorRows db r.VendorNumber)
        then 100 * sumBy (fun s => s.GrossProfit) (vendorRows db r.VendorNumber)
              / sumBy (fun s => s.TotalSalesDollars) (vendorRows db r.VendorNumber)
        else 0 := by
  obtain ⟨v, hv, he⟩ := mem_vendor_summary_by_vendor.mp hr
  subst he
  rw [rollupRow_VendorNumber]
  show (if 0 < sumBy (fun s => s.TotalSalesDollars) (vendorRows db v)
        then 100 * (sumBy (fun s => s.TotalSalesDollars) (vendorRows db v)
                    - sumBy (fun s => s.TotalPurchaseDollars) (vendorRows db v)
                    - sumBy (fun s => s.FreightCost) (vendorRows db v))
              / sumBy (fun s => s.TotalSalesDollars) (vendorRows db v)
        else 0) = _
  rw [sum_grossProfit_eq]

/-! ### Claim C4: the pricing back-solve formulas -/

theorem mem_brand_pricing_opportunities {db : DBInput} {target : ℚ} {r : OppRow} :
    r ∈ brand_pricing_opportunities db target
      ↔ ∃ b ∈ brand_pricing db, r = oppRow target b := by
  simp only [brand_pricing_opportunities, List.mem_map]
  constructor
  · rintro ⟨b, hb, he⟩
    exact ⟨b, hb, he.symm⟩
  · rintro ⟨b, hb, he⟩
    exact ⟨b, hb, he.symm⟩

theorem if_lt_sub_eq_max (a b : ℚ) : (if a < b then b - a else 0) = max 0 (b - a) := by
  by_cases h : a < b
  · rw [if_pos h, max_eq_right (le_of_lt (sub_pos.mpr h))]
  · rw [if_neg h, max_eq_left (sub_nonpos.mpr (le_of_not_lt h))]

theorem oppRow_Upside (target : ℚ) (b : BrandPricingRow) :
    (oppRow target b).UpsideDollars
      = match requiredSalesDollars target b with
        | some rq => if b.TotalSalesDollars < rq then rq - b.TotalSalesDollars else 0
        | none => 0 := rfl

theorem oppRow_Delta (target : ℚ) (b : BrandPricingRow) :
    (oppRow target b).NeededPriceDeltaPerUnit
      = if 0 < b.TotalSalesQuantity then
          some (match requiredSalesDollars target b with
            | some rq =>
              if b.TotalSalesDollars < rq
              then (rq - b.TotalSalesDollars) / b.TotalSalesQuantity
              else 0
            | none => 0)
        else none := rfl

/-- Claim C4: for every row of `brand_pricing_opportunities` built with a
target margin in `(0,1)`: `RequiredSalesDollars` is `0` when the cost basis
`PurchaseDollars + FreightCost` is not positive and `cost basis / (1 -
target)` otherwise; `UpsideDollars = max 0 (RequiredSalesDollars -
SalesDollars)`, hence never negative; and `NeededPriceDeltaPerUnit =
UpsideDollars / SalesQuantity` when `SalesQuantity > 0`, else `NULL`. -/
theorem pricing_opportunity_formulas (db : DBInput) (target : ℚ) (h0 : 0 < target)
    (h1 : target < 1) (r : OppRow) (hr : r ∈ brand_pricing_opportunities db target) :
    (r.TotalPurchaseDollars + r.FreightCost ≤ 0 → r.RequiredSalesDollars = some 0) ∧
    (0 < r.TotalPurchaseDollars + r.FreightCost →
      r.RequiredSalesDollars
        = some ((r.TotalPurchaseDollars + r.FreightCost) / (1 - target))) ∧
    (∃ rq, r.RequiredSalesDollars = some rq
        ∧ r.UpsideDollars = max 0 (rq - r.TotalSalesDollars)) ∧
    0 ≤ r.UpsideDollars ∧
    (0 < r.TotalSalesQuantity →
      r.NeededPriceDeltaPerUnit = some (r.UpsideDollars / r.TotalSalesQuantity)) ∧
    (¬ 0 < r.TotalSalesQuantity → r.NeededPriceDeltaPerUnit = none) := by
  obtain ⟨b, hb, he⟩ := mem_brand_pricing_opportunities.mp hr
  subst he
  have hne : (1 : ℚ) - target ≠ 0 := ne_of_gt (sub_pos.mpr h1)
  have hreq : requiredSalesDollars target b
      = some (if b.TotalPurchaseDollars + b.FreightCost ≤ 0 then 0
              else (b.TotalPurchaseDollars + b.FreightCost) / (1 - target)) := by
    unfold requiredSalesDollars
    by_cases hc : b.TotalPurchaseDollars + b.FreightCost ≤ 0
    · simp [hc]
    · simp [hc, sqlDiv, hne]
  have hup : (oppRow target b).UpsideDollars
      = max 0 ((if b.TotalPurchaseDollars + b.FreightCost ≤ 0 then 0
                else (b.TotalPurchaseDollars + b.FreightCost) / (1 - target))
                - b.TotalSalesDollars) := by
    rw [oppRow_Upside, hreq]
    exact if_lt_sub_eq_max _ _
  refine ⟨?_, ?_, ?_, ?_, ?_, ?_⟩
  · intro hc
    have hc2 : b.TotalPurchaseDollars + b.FreightCost ≤ 0 := hc
    show requiredSalesDollars target b = some 0
    rw [hreq, if_pos hc2]
  · intro hc
    have hc2 : 0 < b.TotalPurchaseDollars + b.FreightCost := hc
    show requiredSalesDollars target b
        = some ((b.TotalPurchaseDollars + b.FreightCost) / (1 - target))
    rw [hreq, if_neg (not_le.mpr hc2)]
  · refine ⟨_, hreq, hup⟩
  · rw [hup]
    exact le_max_left 0 _
  · intro hq
    have hq2 : 0 < b.TotalSalesQuantity := hq
    rw [oppRow_Delta, if_pos hq2, hup, hreq]
    by_cases hlt : b.TotalSalesDollars
        < (if b.TotalPurchaseDollars + b.FreightCost ≤ 0 then 0
           else (b.TotalPurchaseDollars + b.FreightCost) / (1 - target))
    · simp only [hlt, if_pos hlt]
      rw [max_eq_right (le_of_lt (sub_pos.mpr hlt))]
      rfl
    · simp only [hlt, if_neg hlt]
      rw [max_eq_left (sub_nonpos.mpr (le_of_not_lt hlt))]
      simp
  · intro hq
    have hq2 : ¬ 0 < b.TotalSalesQuantity := hq
    rw [oppRow_Delta, if_neg hq2]

/-! ### Claim C7: zero denominators yield 0 or NULL, never an error -/

/-- Claim C7: no ratio computed by the pipeline raises or propagates NaN or
infinity on a zero denominator (the embedding is total over `ℚ` with SQL
`NULL` as `Option.none`): a summary row with zero sales dollars has margin 0;
a row of a vendor with zero total brand-purchase dollars has freight cost 0;
`AvgSalesPrice` and `AvgPurchasePrice` are `NULL` when sales dollars (resp.
purchase dollars) are not positive or sales quantity is zero;
`NeededPriceDeltaPerUnit` is `NULL` when sales quantity is not positive; and
`RequiredSalesDollars` at the degenerate target 1 is `0` or `NULL`. -/
theorem zero_denominator_guards (db : DBInput) (target : ℚ) :
    (∀ r ∈ vendor_sales_summary db, r.TotalSalesDollars = 0 → r.ProfitMargin = 0) ∧
    (∀ r ∈ vendor_sales_summary db,
      vendorPurchDollars db r.VendorNumber = 0 → r.FreightCost = 0) ∧
    (∀ b ∈ brand_pricing db, b.TotalSalesDollars = 0 → avgSalesPrice b = none) ∧
    (∀ b ∈ brand_pricing db, b.TotalSalesQuantity = 0 →
      avgSalesPrice b = none ∧ avgPurchasePrice b = none) ∧
    (∀ r ∈ brand_pricing_opportunities db target, r.TotalSalesDollars = 0 →
      r.AvgSalesPrice = none) ∧
    (∀ r ∈ brand_pricing_opportunities db target, ¬ 0 < r.TotalSalesQuantity →
      r.NeededPriceDeltaPerUnit = none) ∧
    (∀ r ∈ brand_pricing_opportunities db 1,
      r.RequiredSalesDollars = some 0 ∨ r.RequiredSalesDollars = none) := by
  refine ⟨?_, ?_, ?_, ?_, ?_, ?_, ?_⟩
  · intro r hr h0
    obtain ⟨k, hk, he⟩ := mem_vendor_sales_summary.mp hr
    subst he
    rw [summaryRow_ProfitMargin, h0]
    simp
  · intro r hr h0
    obtain ⟨k, hk, he⟩ := mem_vendor_sales_summary.mp hr
    subst he
    rw [summaryRow_FreightCost]
    rw [summaryRow_VendorNumber] at h0
    rw [h0]
    simp
  · intro b _ h0
    simp [avgSalesPrice, h0]
  · intro b _ h0
    constructor
    · unfold avgSalesPrice
      by_cases hd : 0 < b.TotalSalesDollars
      · simp [hd, sqlDiv, h0]
      · simp [hd]
    · unfold avgPurchasePrice
      by_cases hd : 0 < b.TotalPurchaseDollars
      · simp [hd, sqlDiv, h0]
      · simp [hd]
  · intro r hr h0
    obtain ⟨b, hb, he⟩ := mem_brand_pricing_opportunities.mp hr
    subst he
    show avgSalesPrice b = none
    have h0b : b.TotalSalesDollars = 0 := h0
    simp [avgSalesPrice, h0b]
  · intro r hr h0
    obtain ⟨b, hb, he⟩ := mem_brand_pricing_opportunities.mp hr
    subst he
    have h02 : ¬ 0 < b.TotalSalesQuantity := h0
    rw [oppRow_Delta, if_neg h02]
  · intro r hr
    obtain ⟨b, hb, he⟩ := mem_brand_pricing_opportunities.mp hr
    subst he
    show requiredSalesDollars 1 b = some 0 ∨ requiredSalesDollars 1 b = none
    unfold requiredSalesDollars
    by_cases hc : b.TotalPurchaseDollars + b.FreightCost ≤ 0
    · left
      rw [if_pos hc]
    · right
      rw [if_neg hc]
      simp [sqlDiv]

/-! ### Claim C10: the rollup vendor name is the SQL MAX of the group -/

theorem foldl_max_mem {α : Type} [LinearOrder α] (l : List α) (a : α) :
    l.foldl max a = a ∨ l.foldl max a ∈ l := by
  induction l generalizing a with
  | nil => exact Or.inl rfl
  | cons x l ih =>
    rcases ih (max a x) with h | h
    · rcases max_choice a x with h2 | h2
      · exact Or.inl (by rw [List.foldl_cons, h, h2])
      · exact Or.inr (by rw [List.foldl_cons, h, h2]; exact List.mem_cons_self x l)
    · exact Or.inr (List.mem_cons_of_mem x (by rw [List.foldl_cons]; exact h))

theorem le_foldl_max {α : Type} [LinearOrder α] (l : List α) (a : α) :
    a ≤ l.foldl max a ∧ ∀ x ∈ l, x ≤ l.foldl max a := by
  induction l generalizing a with
  | nil => exact ⟨le_refl a, by simp⟩
  | cons y l ih =>
    obtain ⟨h1, h2⟩ := ih (max a y)
    refine ⟨?_, ?_⟩
    · rw [List.foldl_cons]
      exact le_trans (le_max_left a y) h1
    · intro x hx
      rw [List.foldl_cons]
      rcases List.mem_cons.mp hx with h3 | h3
      · subst h3
        exact le_trans (le_max_right a x) h1
      · exact h2 x h3

theorem sqlMaxStr_spec (l : List String) (h : l ≠ []) :
    sqlMaxStr l ∈ l ∧ ∀ x ∈ l, x ≤ sqlMaxStr l := by
  match l with
  | [] => exact absurd rfl h
  | x :: xs =>
    constructor
    · show xs.foldl max x ∈ x :: xs
      rcases foldl_max_mem xs x with h1 | h1
      · rw [h1]
        exact List.mem_cons_self x xs
      · exact List.mem_cons_of_mem x h1
    · intro y hy
      show y ≤ xs.foldl max x
      obtain ⟨ha, hx⟩ := le_foldl_max xs x
      rcases List.mem_cons.mp hy with h2 | h2
      · subst h2
        exact ha
      · exact hx y h2

/-- Claim C10: for every row of `vendor_summary_by_vendor`, `VendorName` is
the maximum (under the SQL text ordering) of the `VendorName` values over
that vendor's rows of `vendor_sales_summary`: it occurs among them and is an
upper bound of them. -/
theorem rollup_vendorName_max (db : DBInput) (r : RollupRow)
    (hr : r ∈ vendor_summary_by_vendor db) :
    r.VendorName ∈ (vendorRows db r.VendorNumber).map (fun s => s.VendorName) ∧
    ∀ n ∈ (vendorRows db r.VendorNumber).map (fun s => s.VendorName), n ≤ r.VendorName := by
  obtain ⟨v, hv, he⟩ := mem_vendor_summary_by_vendor.mp hr
  subst he
  rw [rollupRow_VendorNumber]
  have hvm := mem_groupKeys.mp hv
  obtain ⟨s, hs, hsv⟩ := List.mem_map.mp hvm
  have hsf : s ∈ vendorRows db v := List.mem_filter.mpr ⟨hs, by simp [hsv]⟩
  have hne : (vendorRows db v).map (fun t => t.VendorName) ≠ [] := by
    intro h0
    have hmm := List.mem_map_of_mem (fun t : SummaryRow => t.VendorName) hsf
    rw [h0] at hmm
    exact List.not_mem_nil _ hmm
  have hspec := sqlMaxStr_spec _ hne
  exact ⟨hspec.1, hspec.2⟩

/-! ### Claim C2: which key is unique in `vendor_sales_summary` -/

theorem mem_joinedSP_parts {db : DBInput} {sp : SaleRecord × PurchaseRecord}
    (h : sp ∈ joinedSP db) : sp.1 ∈ db.sales ∧ sp.2 ∈ db.purchases := by
  simp only [joinedSP, List.mem_flatMap, List.mem_map, List.mem_filter] at h
  obtain ⟨s, hs, p, ⟨hp, _⟩, he⟩ := h
  cases he
  exact ⟨hs, hp⟩

theorem key_name_from_purchases {db : DBInput} {k : Nat × String × Nat}
    (hk : k ∈ groupKeys saKey (joinedSP db)) :
    ∃ p ∈ db.purchases, p.VendorNumber = k.1 ∧ p.VendorName = k.2.1 := by
  have hm := mem_groupKeys.mp hk
  obtain ⟨sp, hsp, he⟩ := List.mem_map.mp hm
  have hparts := mem_joinedSP_parts hsp
  refine ⟨sp.2, hparts.2, ?_, ?_⟩
  · rw [← he]
    rfl
  · rw [← he]
    rfl

theorem summary_triples_eq_keys (db : DBInput) :
    (vendor_sales_summary db).map summaryTriple = groupKeys saKey (joinedSP db) := by
  show ((groupKeys saKey (joinedSP db)).map (summaryRow db)).map summaryTriple = _
  rw [List.map_map]
  show (groupKeys saKey (joinedSP db)).map (fun k => k) = _
  exact List.map_id' _

/-- Claim C2 (amended): `vendor_sales_summary` always has exactly one row for
each `(VendorNumber, VendorName, Brand)` triple appearing in the sales-to-
purchases inner join and no other rows; the `(VendorNumber, Brand)` pair is
unique only provided each vendor number carries a single vendor name in
`purchases` (the code groups by the triple, not the pair). -/
theorem summary_key_uniqueness (db : DBInput) :
    ((vendor_sales_summary db).map summaryTriple).Nodup ∧
    (∀ k, k ∈ (vendor_sales_summary db).map summaryTriple ↔ k ∈ (joinedSP db).map saKey) ∧
    ((∀ p1 ∈ db.purchases, ∀ p2 ∈ db.purchases,
        p1.VendorNumber = p2.VendorNumber → p1.VendorName = p2.VendorName) →
      ((vendor_sales_summary db).map summaryPair).Nodup) := by
  refine ⟨?_, ?_, ?_⟩
  · rw [summary_triples_eq_keys]
    exact nodup_groupKeys saKey (joinedSP db)
  · intro k
    rw [summary_triples_eq_keys]
    exact mem_groupKeys
  · intro hname
    have hpairs : (vendor_sales_summary db).map summaryPair
        = (groupKeys saKey (joinedSP db)).map (fun k => (k.1, k.2.2)) := by
      show ((groupKeys saKey (joinedSP db)).map (summaryRow db)).map summaryPair = _
      rw [List.map_map]
      rfl
    rw [hpairs]
    apply List.Nodup.map_on ?_ (nodup_groupKeys saKey (joinedSP db))
    rintro ⟨a1, b1, c1⟩ hk1 ⟨a2, b2, c2⟩ hk2 he
    obtain ⟨p1, hp1, hv1, hn1⟩ := key_name_from_purchases hk1
    obtain ⟨p2, hp2, hv2, hn2⟩ := key_name_from_purchases hk2
    have hv1b : p1.VendorNumber = a1 := hv1
    have hn1b : p1.VendorName = b1 := hn1
    have hv2b : p2.VendorNumber = a2 := hv2
    have hn2b : p2.VendorName = b2 := hn2
    have ha : a1 = a2 := congrArg Prod.fst he
    have hc : c1 = c2 := congrArg Prod.snd he
    have hb : b1 = b2 := by
      rw [← hn1b, ← hn2b]
      apply hname p1 hp1 p2 hp2
      rw [hv1b, hv2b, ha]
    rw [ha, hb, hc]

/-! ### Claim C1: the freight allocated to a vendor sums to its invoice freight -/

theorem purchBrands_sum (db : DBInput) (v : Nat) :
    ((purchBrands db v).map (brandPurchDollars db v)).sum = vendorPurchDollars db v := by
  rw [← sum_brand_purch_vendor db v]
  rw [purchBrands, List.map_map]
  unfold sumBy
  apply congrArg List.sum
  apply List.map_congr_left
  intro b hb
  have hbm := List.mem_filter.mp hb
  have hbv : b.VendorNumber = v := by simpa using hbm.2
  have hbp : b ∈ (groupKeys bpKey db.purchases).map (brandPurchRow db) := hbm.1
  obtain ⟨k, hk, he⟩ := List.mem_map.mp hbp
  subst he
  have hk1 : k.1 = v := hbv
  show brandPurchDollars db v k.2
      = sumBy (fun p => p.PurchasePrice * p.Quantity) (groupRows bpKey db.purchases k)
  unfold brandPurchDollars
  have hkk : ((v : Nat), k.2) = k := by rw [← hk1]
  rw [hkk]

/-- Claim C1 (amended): for every vendor, the sum of `FreightCost` over the
vendor's `vendor_sales_summary` rows is `0` whenever the vendor's total
brand-purchase dollars are `0`; and it equals the vendor's total invoice
freight whenever that freight and the vendor total are strictly positive AND
the brands of the vendor's summary rows enumerate the vendor's purchased
brands exactly once each (a brand purchased but never sold, a vendor with no
sales rows, or a duplicated vendor name breaks the original claim). -/
theorem freight_sum_allocation (db : DBInput) (v : Nat) :
    (vendorPurchDollars db v = 0 → vendorFreightSum db v = 0) ∧
    (0 < invoiceFreight db v → 0 < vendorPurchDollars db v →
      List.Perm (summaryBrands db v) (purchBrands db v) →
      vendorFreightSum db v = invoiceFreight db v) := by
  have haks : vendorFreightSum db v
      = ((((groupKeys saKey (joinedSP db)).filter fun k => k.1 == v)).map
          fun k => (summaryRow db k).FreightCost).sum := by
    unfold vendorFreightSum
    rw [vendorRows_eq]
    simp only [sumBy, List.map_map]
    rfl
  have hfc : ∀ k ∈ (groupKeys saKey (joinedSP db)).filter fun k => k.1 == v,
      (summaryRow db k).FreightCost
        = if 0 < invoiceFreight db v ∧ 0 < vendorPurchDollars db v
          then invoiceFreight db v * brandPurchDollars db v k.2.2 / vendorPurchDollars db v
          else 0 := by
    intro k hk
    have hk1 : k.1 = v := by simpa using (List.mem_filter.mp hk).2
    rw [summaryRow_FreightCost, hk1]
  constructor
  · intro hT
    rw [haks]
    have hz : (((groupKeys saKey (joinedSP db)).filter fun k => k.1 == v)).map
        (fun k => (summaryRow db k).FreightCost)
        = (((groupKeys saKey (joinedSP db)).filter fun k => k.1 == v)).map
            fun _ => (0 : ℚ) := by
      apply List.map_congr_left
      intro k hk
      rw [hfc k hk, hT]
      simp
    rw [hz, sum_map_zero]
  · intro hF hT hperm
    rw [haks]
    have hmap : (((groupKeys saKey (joinedSP db)).filter fun k => k.1 == v)).map
        (fun k => (summaryRow db k).FreightCost)
        = (((groupKeys saKey (joinedSP db)).filter fun k => k.1 == v)).map
            (fun k => (invoiceFreight db v / vendorPurchDollars db v)
              * brandPurchDollars db v k.2.2) := by
      apply List.map_congr_left
      intro k hk
      rw [hfc k hk, if_pos ⟨hF, hT⟩]
      ring
    rw [hmap, List.sum_map_mul_left]
    have hbr : (((groupKeys saKey (joinedSP db)).filter fun k => k.1 == v)).map
        (fun k => brandPurchDollars db v k.2.2)
        = (summaryBrands db v).map (brandPurchDollars db v) := by
      rw [summaryBrands, vendorRows_eq, List.map_map, List.map_map]
      rfl
    rw [hbr, (hperm.map (brandPurchDollars db v)).sum_eq, purchBrands_sum db v]
    exact div_mul_cancel₀ (invoiceFreight db v) (ne_of_gt hT)

/-! ### Claim C8: the precondition check -/

/-- Claim C8: when any of the three base tables is absent the pipeline
returns a single error whose message lists all the absent base table names
at once, and no rebuilt database is produced (the check runs before any
mutation); when all three are present, the check passes and the pipeline
returns a rebuilt database. -/
theorem precondition_check (db : Database) (target : ℚ) :
    (missingTables db ≠ [] →
      runPipeline db target = Except.error (missingMsg (missingTables db))) ∧
    (missingTables db = [] → ∃ db2, runPipeline db target = Except.ok db2) ∧
    ("purchases" ∈ missingTables db ↔ db.purchases = none) ∧
    ("vendor_invoice" ∈ missingTables db ↔ db.vendor_invoice = none) ∧
    ("sales" ∈ missingTables db ↔ db.sales = none) := by
  refine ⟨?_, ?_, ?_, ?_, ?_⟩
  · intro hm
    rw [runPipeline, if_neg hm]
  · intro hm
    obtain ⟨p, hp⟩ : ∃ p, db.purchases = some p := by
      cases hpp : db.purchases
      · exfalso
        rw [missingTables, hpp] at hm
        simp at hm
      · exact ⟨_, rfl⟩
    obtain ⟨vi, hvi⟩ : ∃ vi, db.vendor_invoice = some vi := by
      cases hvv : db.vendor_invoice
      · exfalso
        rw [missingTables, hvv] at hm
        simp at hm
      · exact ⟨_, rfl⟩
    obtain ⟨s, hs⟩ : ∃ s, db.sales = some s := by
      cases hss : db.sales
      · exfalso
        rw [missingTables, hss] at hm
        simp at hm
      · exact ⟨_, rfl⟩
    refine ⟨rebuildAll s p vi target db, ?_⟩
    rw [runPipeline, if_pos hm, hp, hvi, hs]
  · cases hp : db.purchases <;> simp [missingTables, hp]
  · cases hp : db.purchases <;> cases hv : db.vendor_invoice <;>
      simp [missingTables, hp, hv]
  · cases hp : db.purchases <;> cases hv : db.vendor_invoice <;> cases hs : db.sales <;>
      simp [missingTables, hp, hv, hs]

/-! ### Claim C9: the pipeline is idempotent -/

/-- Claim C9: a second run of the pipeline against the unchanged base tables
with the same target margin returns the same database: every derived table is
recomputed deterministically from the base tables alone, so the second run
rebuilds identical contents. -/
theorem pipeline_idempotent (db db2 : Database) (target : ℚ)
    (h : runPipeline db target = Except.ok db2) :
    runPipeline db2 target = Except.ok db2 := by
  rw [runPipeline] at h
  by_cases hm : missingTables db = []
  · rw [if_pos hm] at h
    obtain ⟨p, hp⟩ : ∃ p, db.purchases = some p := by
      cases hpp : db.purchases
      · exfalso
        rw [missingTables, hpp] at hm
        simp at hm
      · exact ⟨_, rfl⟩
    obtain ⟨vi, hvi⟩ : ∃ vi, db.vendor_invoice = some vi := by
      cases hvv : db.vendor_invoice
      · exfalso
        rw [missingTables, hvv] at hm
        simp at hm
      · exact ⟨_, rfl⟩
    obtain ⟨s, hs⟩ : ∃ s, db.sales = some s := by
      cases hss : db.sales
      · exfalso
        rw [missingTables, hss] at hm
        simp at hm
      · exact ⟨_, rfl⟩
    rw [hp, hvi, hs] at h
    have h2 : Except.ok (ε := String) (rebuildAll s p vi target db) = Except.ok db2 := h
    have hdb2 : db2 = rebuildAll s p vi target db := (Except.ok.inj h2).symm
    subst hdb2
    have hbp : (rebuildAll s p vi target db).purchases = some p := hp
    have hbvi : (rebuildAll s p vi target db).vendor_invoice = some vi := hvi
    have hbs : (rebuildAll s p vi target db).sales = some s := hs
    have hm2 : missingTables (rebuildAll s p vi target db) = [] := by
      rw [missingTables, hbp, hbvi, hbs]
      rfl
    rw [runPipeline, if_pos hm2, hbp, hbvi, hbs]
    rfl
  · rw [if_neg hm] at h
    cases h

/-! ### Concrete evaluations on the example inputs -/

theorem exDB_keys_eq : groupKeys saKey (joinedSP exDB) = [(1, "V1", 10), (1, "V1", 20)] := by
  decide

theorem mem_exDB_row1 : summaryRow exDB (1, "V1", 10) ∈ vendor_sales_summary exDB := by
  rw [vendor_sales_summary, exDB_keys_eq]
  simp

theorem mem_exDB_row2 : summaryRow exDB (1, "V1", 20) ∈ vendor_sales_summary exDB := by
  rw [vendor_sales_summary, exDB_keys_eq]
  simp

theorem exDB_vnum_keys :
    groupKeys (fun s : SummaryRow => s.VendorNumber) (vendor_sales_summary exDB) = [1] := by
  decide

theorem mem_exDB_rollup : rollupRow exDB 1 ∈ vendor_summary_by_vendor exDB := by
  rw [vendor_summary_by_vendor, exDB_vnum_keys]
  simp

/-- Witness for C1 (amended) at `exDB`: smallest freight example, both
brands sold, so the allocated freight sums back to the invoice freight. -/
theorem freight_sum_allocation_witness : vendorFreightSum exDB 1 = invoiceFreight exDB 1 :=
  (freight_sum_allocation exDB 1).2
    (by norm_num [invoiceFreight, groupRows, sumBy, exDB])
    (by norm_num [vendorPurchDollars, sumBy, exDB])
    (by decide)

/-- Counterexample to C1 as stated: on `cdb1` vendor 1 has total
brand-purchase dollars 1000 > 0, yet the freight cost summed over its
summary rows is 30 while its invoice freight is 100 (brand 20 was purchased
but never sold, so its 70-dollar share is allocated to no row). -/
theorem freight_sum_counterexample :
    0 < vendorPurchDollars cdb1 1 ∧ vendorFreightSum cdb1 1 ≠ invoiceFreight cdb1 1 := by
  have hkeys : groupKeys saKey (joinedSP cdb1) = [(1, "V", 10)] := by decide
  have hvss : vendor_sales_summary cdb1 = [summaryRow cdb1 (1, "V", 10)] := by
    rw [vendor_sales_summary, hkeys]
    rfl
  have hrows : vendorRows cdb1 1 = [summaryRow cdb1 (1, "V", 10)] := by
    rw [vendorRows, hvss]
    rfl
  have hfc : (summaryRow cdb1 (1, "V", 10)).FreightCost = 30 := by
    rw [summaryRow_FreightCost]
    norm_num [invoiceFreight, vendorPurchDollars, brandPurchDollars, groupRows, sumBy, cdb1,
      bpKey]
  have hinv : invoiceFreight cdb1 1 = 100 := by
    norm_num [invoiceFreight, groupRows, sumBy, cdb1]
  constructor
  · norm_num [vendorPurchDollars, sumBy, cdb1]
  · rw [vendorFreightSum, hrows, hinv]
    simp [sumBy, hfc]

/-- Witness for C2 (amended) at `exDB`, whose purchases carry one name per
vendor: the `(VendorNumber, Brand)` pairs of the summary are then unique. -/
theorem summary_key_uniqueness_witness :
    ((vendor_sales_summary exDB).map summaryPair).Nodup :=
  (summary_key_uniqueness exDB).2.2 (by decide)

/-- Counterexample to C2 as stated: on `cdb2` vendor 1 appears in purchases
under two vendor names, and the summary holds two rows with the same
`(VendorNumber, Brand)` pair `(1, 10)`. -/
theorem summary_pair_not_unique :
    ¬ ((vendor_sales_summary cdb2).map summaryPair).Nodup := by
  decide

/-- Witness for C3 at the spec's example: vendor 1 has invoice freight 100
and brands with purchase dollars 300 and 700; the rows get freight cost 30
and 70. -/
theorem freight_allocation_per_row_witness :
    (summaryRow exDB (1, "V1", 10)).FreightCost = 30 ∧
    (summaryRow exDB (1, "V1", 20)).FreightCost = 70 := by
  have h1 := freight_allocation_per_row exDB (summaryRow exDB (1, "V1", 10)) mem_exDB_row1
  have h2 := freight_allocation_per_row exDB (summaryRow exDB (1, "V1", 20)) mem_exDB_row2
  rw [summaryRow_VendorNumber, summaryRow_Brand] at h1 h2
  constructor
  · rw [h1]
    norm_num [invoiceFreight, vendorPurchDollars, brandPurchDollars, groupRows, sumBy, exDB,
      bpKey]
  · rw [h2]
    norm_num [invoiceFreight, vendorPurchDollars, brandPurchDollars, groupRows, sumBy, exDB,
      bpKey]

/-- Witness for C5 at `exDB`: both identities at the brand-10 row. -/
theorem grossProfit_margin_identity_witness :
    (summaryRow exDB (1, "V1", 10)).GrossProfit
      = (summaryRow exDB (1, "V1", 10)).TotalSalesDollars
        - (summaryRow exDB (1, "V1", 10)).TotalPurchaseDollars
        - (summaryRow exDB (1, "V1", 10)).FreightCost ∧
    (summaryRow exDB (1, "V1", 10)).ProfitMargin
      = if 0 < (summaryRow exDB (1, "V1", 10)).TotalSalesDollars
        then 100 * (summaryRow exDB (1, "V1", 10)).GrossProfit
              / (summaryRow exDB (1, "V1", 10)).TotalSalesDollars
        else 0 :=
  grossProfit_margin_identity exDB (summaryRow exDB (1, "V1", 10)) mem_exDB_row1

/-- Witness for C6 at `exDB`: the rollup margin of vendor 1 is recomputed
from the summed gross profit and sales dollars of its brand rows. -/
theorem rollup_margin_recomputed_witness :
    (rollupRow exDB 1).ProfitMargin
      = if 0 < sumBy (fun s => s.TotalSalesDollars)
              (vendorRows exDB (rollupRow exDB 1).VendorNumber)
        then 100 * sumBy (fun s => s.GrossProfit)
                (vendorRows exDB (rollupRow exDB 1).VendorNumber)
              / sumBy (fun s => s.TotalSalesDollars)
                  (vendorRows exDB (rollupRow exDB 1).VendorNumber)
        else 0 :=
  rollup_margin_recomputed exDB (rollupRow exDB 1) mem_exDB_rollup

theorem exDB4_keys_eq : groupKeys saKey (joinedSP exDB4) = [(1, "V", 10)] := by
  decide

theorem exDB4_vss : vendor_sales_summary exDB4 = [summaryRow exDB4 (1, "V", 10)] := by
  rw [vendor_sales_summary, exDB4_keys_eq]
  rfl

theorem exDB4_bp_keys : groupKeys bprKey (vendor_sales_summary exDB4) = [(1, "V", 10)] := by
  decide

theorem exDB4_bp : brand_pricing exDB4 = [brandPricingRow exDB4 (1, "V", 10)] := by
  rw [brand_pricing, exDB4_bp_keys]
  rfl

theorem mem_exDB4_opp :
    oppRow (2/5) (brandPricingRow exDB4 (1, "V", 10))
      ∈ brand_pricing_opportunities exDB4 (2/5) := by
  rw [brand_pricing_opportunities, exDB4_bp]
  simp

theorem exDB4_group :
    groupRows bprKey (vendor_sales_summary exDB4) ((1 : Nat), "V", (10 : Nat))
      = [summaryRow exDB4 (1, "V", 10)] := by
  rw [groupRows, exDB4_vss]
  rfl

theorem exDB4_row_fields :
    (summaryRow exDB4 (1, "V", 10)).TotalSalesQuantity = 10 ∧
    (summaryRow exDB4 (1, "V", 10)).TotalSalesDollars = 800 ∧
    (summaryRow exDB4 (1, "V", 10)).TotalPurchaseDollars = 600 ∧
    (summaryRow exDB4 (1, "V", 10)).FreightCost = 0 := by
  refine ⟨?_, ?_, ?_, ?_⟩
  · show sumBy (fun sp => sp.1.SalesQuantity) (groupRows saKey (joinedSP exDB4) (1, "V", 10))
        = 10
    norm_num [groupRows, sumBy, joinedSP, exDB4, saKey]
  · show sumBy (fun sp => sp.1.SalesDollars) (groupRows saKey (joinedSP exDB4) (1, "V", 10))
        = 800
    norm_num [groupRows, sumBy, joinedSP, exDB4, saKey]
  · rw [summaryRow_TotalPurchaseDollars]
    norm_num [brandPurchDollars, groupRows, sumBy, exDB4, bpKey]
  · rw [summaryRow_FreightCost]
    norm_num [invoiceFreight, groupRows, sumBy, exDB4]

theorem exDB4_bprow_fields :
    (brandPricingRow exDB4 (1, "V", 10)).TotalSalesQuantity = 10 ∧
    (brandPricingRow exDB4 (1, "V", 10)).TotalSalesDollars = 800 ∧
    (brandPricingRow exDB4 (1, "V", 10)).TotalPurchaseDollars = 600 ∧
    (brandPricingRow exDB4 (1, "V", 10)).FreightCost = 0 := by
  obtain ⟨hf1, hf2, hf3, hf4⟩ := exDB4_row_fields
  refine ⟨?_, ?_, ?_, ?_⟩
  · show sumBy (fun r => r.TotalSalesQuantity)
        (groupRows bprKey (vendor_sales_summary exDB4) (1, "V", 10)) = 10
    rw [exDB4_group]
    simp [sumBy, hf1]
  · show sumBy (fun r => r.TotalSalesDollars)
        (groupRows bprKey (vendor_sales_summary exDB4) (1, "V", 10)) = 800
    rw [exDB4_group]
    simp [sumBy, hf2]
  · show sumBy (fun r => r.TotalPurchaseDollars)
        (groupRows bprKey (vendor_sales_summary exDB4) (1, "V", 10)) = 600
    rw [exDB4_group]
    simp [sumBy, hf3]
  · show sumBy (fun r => r.FreightCost)
        (groupRows bprKey (vendor_sales_summary exDB4) (1, "V", 10)) = 0
    rw [exDB4_group]
    simp [sumBy, hf4]

/-- Witness for C4 at the spec's example: purchase dollars 600, freight 0,
target 0.4, actual sales 800 give required sales 1000 and upside 200. -/
theorem pricing_opportunity_witness :
    (oppRow (2/5) (brandPricingRow exDB4 (1, "V", 10))).RequiredSalesDollars = some 1000 ∧
    (oppRow (2/5) (brandPricingRow exDB4 (1, "V", 10))).UpsideDollars = 200 := by
  have h := pricing_opportunity_formulas exDB4 (2/5) (by norm_num) (by norm_num)
      (oppRow (2/5) (brandPricingRow exDB4 (1, "V", 10))) mem_exDB4_opp
  obtain ⟨hf1, hf2, hf3, hf4⟩ := exDB4_bprow_fields
  have hcost : (oppRow (2/5) (brandPricingRow exDB4 (1, "V", 10))).TotalPurchaseDollars
      + (oppRow (2/5) (brandPricingRow exDB4 (1, "V", 10))).FreightCost = 600 := by
    show (brandPricingRow exDB4 (1, "V", 10)).TotalPurchaseDollars
        + (brandPricingRow exDB4 (1, "V", 10)).FreightCost = 600
    rw [hf3, hf4]
    norm_num
  have hreq := h.2.1 (by rw [hcost]; norm_num)
  rw [hcost] at hreq
  have hreq2 : (oppRow (2/5) (brandPricingRow exDB4 (1, "V", 10))).RequiredSalesDollars
      = some 1000 := by
    rw [hreq]
    norm_num
  refine ⟨hreq2, ?_⟩
  obtain ⟨rq, hrq, hup⟩ := h.2.2.1
  rw [hreq2] at hrq
  have hrqv : rq = 1000 := (Option.some.inj hrq).symm
  subst hrqv
  rw [hup]
  have htsd : (oppRow (2/5) (brandPricingRow exDB4 (1, "V", 10))).TotalSalesDollars = 800 :=
    hf2
  rw [htsd]
  rw [(by norm_num : (1000 : ℚ) - 800 = 200)]
  exact max_eq_right (by norm_num)

theorem exDB7_keys_eq : groupKeys saKey (joinedSP exDB7) = [(1, "V", 10)] := by
  decide

theorem mem_exDB7_row : summaryRow exDB7 (1, "V", 10) ∈ vendor_sales_summary exDB7 := by
  rw [vendor_sales_summary, exDB7_keys_eq]
  simp

theorem exDB7_tsd : (summaryRow exDB7 (1, "V", 10)).TotalSalesDollars = 0 := by
  show sumBy (fun sp => sp.1.SalesDollars) (groupRows saKey (joinedSP exDB7) (1, "V", 10)) = 0
  norm_num [groupRows, sumBy, joinedSP, exDB7, saKey]

/-- Witness for C7 at `exDB7`: the sold brand has zero sales dollars and its
summary row has `ProfitMargin = 0`, with no error. -/
theorem zero_denominator_guards_witness :
    (summaryRow exDB7 (1, "V", 10)).ProfitMargin = 0 :=
  (zero_denominator_guards exDB7 (35/100)).1 (summaryRow exDB7 (1, "V", 10)) mem_exDB7_row
    exDB7_tsd

/-- Witness for C8 at `exDb8`, whose `sales` table is absent: the pipeline
returns the error naming the missing tables. -/
theorem precondition_check_witness :
    runPipeline exDb8 (35/100) = Except.error (missingMsg (missingTables exDb8)) :=
  (precondition_check exDb8 (35/100)).1 (by decide)

/-- Witness for C9 at `exDb9`: after a first successful run, a second run
returns the identical database. -/
theorem pipeline_idempotent_witness :
    runPipeline (rebuildAll [] [] [] (35/100) exDb9) (35/100)
      = Except.ok (rebuildAll [] [] [] (35/100) exDb9) :=
  pipeline_idempotent exDb9 (rebuildAll [] [] [] (35/100) exDb9) (35/100) rfl

theorem cdb2_vnum_keys :
    groupKeys (fun s : SummaryRow => s.VendorNumber) (vendor_sales_summary cdb2) = [1] := by
  decide

theorem mem_cdb2_rollup : rollupRow cdb2 1 ∈ vendor_summary_by_vendor cdb2 := by
  rw [vendor_summary_by_vendor, cdb2_vnum_keys]
  simp

/-- Witness for C10 at `cdb2`, where vendor 1 carries two names: the rollup
name is one of the group's names and an upper bound of them. -/
theorem rollup_vendorName_max_witness :
    (rollupRow cdb2 1).VendorName
        ∈ (vendorRows cdb2 (rollupRow cdb2 1).VendorNumber).map (fun s => s.VendorName) ∧
    ∀ n ∈ (vendorRows cdb2 (rollupRow cdb2 1).VendorNumber).map (fun s => s.VendorName),
      n ≤ (rollupRow cdb2 1).VendorName :=
  rollup_vendorName_max cdb2 (rollupRow cdb2 1) mem_cdb2_rollup
